import Mathlib

/-!
Shallow embedding of the vitro-site content-management backend
(Express servers in src/unnamed/part_000, src/unnamed/part_001 and the
session-server variant embedded in src/README.md lines 28-347).

JavaScript values that flow through the JSON endpoints are modelled by the
inductive type `Json` below; JS numbers are modelled as integers (no claim
exercises float formatting).  Machine state touched by the handlers is made
explicit: the persisted document file is a `FileState`, the express-session
record is an `Option Bool` (the `authed` flag), and the in-memory contact
rate-limit map is an association list.
-/

namespace VitroSite

/-- A JSON value as produced by `express.json()` / `JSON.parse`.  Objects are
association lists in insertion order, matching JS object key order for the
string keys that occur here. -/
inductive Json where
  | null
  | bool (b : Bool)
  | num (n : Int)
  | str (s : String)
  | arr (elems : List Json)
  | obj (fields : List (String × Json))

/-- JS truthiness of a JSON value (`Boolean(x)`): `null`, `false`, `0` and the
empty string are falsy; every object and array is truthy. -/
def Json.isTruthy : Json → Bool
  | .null => false
  | .bool b => b
  | .num n => n != 0
  | .str s => s ≠ ""
  | .arr _ => true
  | .obj _ => true

/-- Whether `typeof x === "object"` holds in JS: true for objects, arrays and
`null`, false for strings, numbers and booleans. -/
def Json.typeofIsObject : Json → Bool
  | .null => true
  | .arr _ => true
  | .obj _ => true
  | _ => false

/-- Property access `x.k` (as in `req.body?.data`): a present object field, or
`undefined` (`none`) on anything that is not an object with that key. -/
def Json.getField : Json → String → Option Json
  | .obj fs, k => (fs.find? (fun p => p.1 = k)).map (fun p => p.2)
  | _, _ => none

/-!
Serialized size.  `POST /api/site` measures
`Buffer.byteLength(JSON.stringify(data), "utf8")` (src/README.md line 187,
src/unnamed/part_001 line 144).  `serializedSize` computes the UTF-8 byte
length of the compact `JSON.stringify` output directly, without building the
string: per-character escaping cost, quotes, brackets, commas and colons.
-/

/-- UTF-8 byte cost of one character inside a `JSON.stringify` string literal:
quote and backslash become two-character escapes, the five short control
escapes are two characters, other control characters become six-character
escape sequences, and everything else is emitted verbatim in UTF-8. -/
def escSize (c : Char) : Nat :=
  if c = '"' ∨ c = '\\' then 2
  else if c = '\x08' ∨ c = '\t' ∨ c = '\n' ∨ c = '\x0c' ∨ c = '\r' then 2
  else if c.toNat < 0x20 then 6
  else c.utf8Size

/-- Byte length of `JSON.stringify` applied to a string: two quotes plus the
escaped characters. -/
def strSize (s : String) : Nat := 2 + (s.data.map escSize).sum

mutual

/-- Byte length of compact `JSON.stringify` output for a JSON value. -/
def serializedSize : Json → Nat
  | .null => 4
  | .bool b => if b then 4 else 5
  | .num n => (toString n).length
  | .str s => strSize s
  | .arr xs => 2 + sizeElems xs
  | .obj fs => 2 + sizeFields fs

/-- Byte length of the comma-separated element list of a stringified array. -/
def sizeElems : List Json → Nat
  | [] => 0
  | [x] => serializedSize x
  | x :: y :: rest => serializedSize x + 1 + sizeElems (y :: rest)

/-- Byte length of the comma-separated `"key":value` list of a stringified
object. -/
def sizeFields : List (String × Json) → Nat
  | [] => 0
  | [(k, v)] => strSize k + 1 + serializedSize v
  | (k, v) :: p :: rest => strSize k + 1 + serializedSize v + 1 + sizeFields (p :: rest)

end

/-!
Content store.  The persisted document lives in one file
`<DATA_DIR>/site-data.json`; `FileState` describes what a read of that file
can encounter.  After a successful write the file holds
`JSON.stringify(payload, null, 2)`, which `JSON.parse` maps back to the same
JSON value, so a written file is represented as `parsed payload`.
-/

/-- State of the site-data file as seen by `fsp.readFile` + `JSON.parse`:
the file may be missing (ENOENT), unreadable (read error), empty or otherwise
malformed (parse error), or hold text parsing to the JSON value `j`. -/
inductive FileState where
  | missing
  | unreadable
  | empty
  | malformed
  | parsed (j : Json)

/-- Embeds `readSiteData` (src/README.md lines 85-93, src/unnamed/part_001
lines 37-45): any read or parse failure yields `null` (`none` here), and a
parsed value survives only the JS check `json && typeof json === "object"` —
truthiness plus `typeof`, which keeps objects and arrays. -/
def readSiteData : FileState → Option Json
  | .parsed j => if j.isTruthy && j.typeofIsObject then some j else none
  | _ => none

/-- Own enumerable properties produced by spreading a value into an object
literal, as in `{...data, _meta: ...}`: an object contributes its fields, an
array its elements under the index keys "0", "1", ..., a string its characters
under index keys, and primitives contribute nothing. -/
def spreadFields : Json → List (String × Json)
  | .obj fs => fs
  | .arr xs => (List.range xs.length).zip xs |>.map (fun p => (toString p.1, p.2))
  | .str s => (List.range s.data.length).zip s.data |>.map
      (fun p => (toString p.1, Json.str (String.mk [p.2])))
  | _ => []

/-- JS object-literal update `{...fields, k: v}`: if `k` already occurs its
value is replaced in place, otherwise the pair is appended. -/
def setKey (fs : List (String × Json)) (k : String) (v : Json) : List (String × Json) :=
  if fs.any (fun p => p.1 = k) then fs.map (fun p => if p.1 = k then (k, v) else p)
  else fs ++ [(k, v)]

/-- The `_meta` object injected by `writeSiteData`: `{ savedAt: <ISO string> }`.
The timestamp `new Date().toISOString()` is external input and is passed in as
an opaque string. -/
def metaObj (now : String) : Json := .obj [("savedAt", .str now)]

/-- The payload `writeSiteData` builds (src/README.md lines 95-103,
src/unnamed/part_001 lines 47-60): `{ ...data, _meta: { savedAt: now } }`. -/
def writePayload (data : Json) (now : String) : Json :=
  .obj (setKey (spreadFields data) "_meta" (metaObj now))

/-- Embeds `writeSiteData data`: on success the file now parses back to the
payload and the payload is returned; a filesystem failure (`diskOk = false`)
rethrows (modelled as `none`) and leaves the file as it was.  (A crash mid
write could also truncate the file; that interleaving is not modelled.) -/
def writeSiteData (data : Json) (now : String) (diskOk : Bool) (fs : FileState) :
    Option Json × FileState :=
  if diskOk then (some (writePayload data now), .parsed (writePayload data now))
  else (none, fs)

/-!
Session authenticator and HTTP surface of the session-server variant
(src/README.md lines 28-347; src/unnamed/part_001 is the same server except
for its 2,000,000-byte size ceiling and error bodies without the `ok` flag).
A request's session is the express-session `authed` flag: `none` when no
session record exists, `some b` when a record with `authed = b` exists.
-/

/-- HTTP response produced by a handler: status code plus the JSON body given
to `res.json(...)`. -/
structure ApiResponse where
  status : Nat
  body : Json

/-- Embeds `isAuthed` (src/README.md lines 123-125):
`Boolean(req.session && req.session.authed)`. -/
def isAuthed : Option Bool → Bool
  | some b => b
  | none => false

/-- Response sent by `requireSessionApi` when the gate fails
(src/README.md lines 132-135). -/
def unauthorizedResponse : ApiResponse :=
  ⟨401, .obj [("ok", .bool false), ("error", .str "Unauthorized")]⟩

/-- Environment-variable fallback `process.env.X || dflt`: the default is used
when the variable is unset or the empty string (both are falsy). -/
def envDefault (v : Option String) (dflt : String) : String :=
  match v with
  | some s => if s = "" then dflt else s
  | none => dflt

/-- `ADMIN_USER` (src/README.md line 43, src/unnamed/part_001 line 11):
defaults to "admin". -/
def adminUser (env : Option String) : String := envDefault env "admin"

/-- `ADMIN_PASS` (src/README.md line 44, src/unnamed/part_001 line 12):
defaults to "change-me". -/
def adminPass (env : Option String) : String := envDefault env "change-me"

/-- Strict JS comparison `v === s` of a request-body field against a
configured string: only a string of equal contents compares equal. -/
def jsEqStr (v : Option Json) (s : String) : Bool :=
  match v with
  | some (.str t) => t = s
  | _ => false

/-- Embeds `POST /api/login` (src/README.md lines 151-160, src/unnamed/part_001
lines 111-118): both fields must strictly equal the configured credentials;
on success `req.session.authed = true` and `{ok:true}`, otherwise 401 and the
session is untouched. -/
def postLogin (aUser aPass : String) (body : Option Json) (sess : Option Bool) :
    ApiResponse × Option Bool :=
  let username := body.bind (fun b => b.getField "username")
  let password := body.bind (fun b => b.getField "password")
  if jsEqStr username aUser && jsEqStr password aPass then
    (⟨200, .obj [("ok", .bool true)]⟩, some true)
  else
    (⟨401, .obj [("ok", .bool false), ("error", .str "Λάθος username ή password.")]⟩, sess)

/-- Embeds `POST /api/logout` (src/README.md lines 162-164, src/unnamed/part_001
lines 120-124): no gate in front; `req.session.destroy` runs unconditionally
and the callback answers `{ok:true}` with status 200. -/
def postLogout (_sess : Option Bool) : ApiResponse × Option Bool :=
  (⟨200, .obj [("ok", .bool true)]⟩, none)

/-- The JS value bound to `data` in `res.json({ ok: true, data: data || null })`:
the read result when present (readSiteData only ever returns truthy values),
and JSON `null` otherwise. -/
def siteDataOrNull (fs : FileState) : Json :=
  match readSiteData fs with
  | some j => if j.isTruthy then j else .null
  | none => .null

/-- Embeds `GET /api/site` (src/README.md lines 174-177, src/unnamed/part_001
lines 134-137): always 200 with `{ok: true, data: <document or null>}`. -/
def getSite (fs : FileState) : ApiResponse :=
  ⟨200, .obj [("ok", .bool true), ("data", siteDataOrNull fs)]⟩

/-- Size ceiling of `POST /api/site` in src/README.md line 188: `18_000_000`
bytes of compact serialized JSON.  (The src/unnamed/part_001 copy of the
handler uses `2_000_000` instead.) -/
def MAX_SITE_SIZE : Nat := 18000000

/-- The validation check of `POST /api/site` on `req.body?.data`:
`!data || typeof data !== "object"` rejects a missing field, any falsy value
and any non-object primitive — but lets JSON arrays through, since in JS
`typeof [] === "object"` and arrays are truthy. -/
def dataAccepted : Option Json → Bool
  | some d => d.isTruthy && d.typeofIsObject
  | none => false

/-- Embeds `POST /api/site` (src/README.md lines 179-202): the
`requireSessionApi` gate, then the `!data || typeof data !== "object"` check
(400), then the serialized-size guardrail (413), then `writeSiteData` whose
failure is caught as a 500; on success `{ok:true, data: saved}` and the file
now holds the payload. -/
def postSite (sess : Option Bool) (body : Option Json) (now : String) (diskOk : Bool)
    (fs : FileState) : ApiResponse × FileState :=
  if !isAuthed sess then (unauthorizedResponse, fs)
  else
    match body.bind (fun b => b.getField "data") with
    | none => (⟨400, .obj [("ok", .bool false), ("error", .str "Missing data")]⟩, fs)
    | some d =>
      if !(d.isTruthy && d.typeofIsObject) then
        (⟨400, .obj [("ok", .bool false), ("error", .str "Missing data")]⟩, fs)
      else if serializedSize d > MAX_SITE_SIZE then
        (⟨413, .obj [("ok", .bool false),
                     ("error", .str "Payload too large (reduce images or text)")]⟩, fs)
      else
        match writeSiteData d now diskOk fs with
        | (some saved, fs') => (⟨200, .obj [("ok", .bool true), ("data", saved)]⟩, fs')
        | (none, fs') => (⟨500, .obj [("ok", .bool false), ("error", .str "write failed")]⟩, fs')

/-- Embeds `POST /api/upload` (src/README.md lines 232-237): the
`requireSessionApi` gate runs before multer, so an unauthenticated request is
answered 401 before any file is stored; otherwise 400 without a file and
`{ok:true, url}` with one.  `file` is the multer-generated stored filename;
`encodeURIComponent` is the identity on multer's generated names (which match
`[a-z0-9._-]*` by construction), so the URL is plain concatenation.  The
site-data file is never touched. -/
def postUpload (sess : Option Bool) (file : Option String) (fs : FileState) :
    ApiResponse × FileState :=
  if !isAuthed sess then (unauthorizedResponse, fs)
  else
    match file with
    | none => (⟨400, .obj [("ok", .bool false), ("error", .str "No file uploaded")]⟩, fs)
    | some f => (⟨200, .obj [("ok", .bool true), ("url", .str ("/uploads/" ++ f))]⟩, fs)

/-- Embeds `POST /api/site` of the Brevo server variant (src/unnamed/part_000
lines 460-469): no authentication of any kind; the request body is written to
the site-data file verbatim via `writeJsonSafe`, answering `{ok:true}` on
success and 500 `Failed to save` when the filesystem write fails. -/
def postSiteBrevo (body : Json) (diskOk : Bool) (fs : FileState) :
    ApiResponse × FileState :=
  if diskOk then (⟨200, .obj [("ok", .bool true)]⟩, .parsed body)
  else (⟨500, .obj [("ok", .bool false), ("error", .str "Failed to save")]⟩, fs)

/-!
Contact-relay endpoint of the session+SMTP server variant
(src/unnamed/part_000 lines 138-154 and 251-301): an in-memory rate limiter
keyed by client address, then honeypot, field validation, SMTP configuration
check and the actual send.
-/

/-- One entry of the `contactHits` map: hit count and window start
(`Date.now()` milliseconds). -/
structure RLEntry where
  count : Nat
  ts : Nat

/-- `contactHits.get(ip)` on the association-list model of the Map. -/
def rlLookup (m : List (String × RLEntry)) (ip : String) : Option RLEntry :=
  (m.find? (fun p => p.1 = ip)).map (fun p => p.2)

/-- `contactHits.set(ip, entry)`: replace the existing entry or append. -/
def rlSet (m : List (String × RLEntry)) (ip : String) (e : RLEntry) :
    List (String × RLEntry) :=
  if m.any (fun p => p.1 = ip) then m.map (fun p => if p.1 = ip then (ip, e) else p)
  else m ++ [(ip, e)]

/-- The 429 answer of the rate limiter (src/unnamed/part_000 line 152). -/
def tooManyResponse : ApiResponse :=
  ⟨429, .obj [("ok", .bool false), ("error", .str "Too many requests")]⟩

/-- Embeds `contactRateLimit` (src/unnamed/part_000 lines 140-154) for one
request from `ip` at time `now`: fetch or create the entry, reset it when the
window (60000 ms, max 10 hits) has elapsed, count the hit, store it back, and
either short-circuit with 429 (`some tooManyResponse`) or fall through to the
handler (`none`).  JS computes `now - entry.ts` on signed numbers; truncated
Nat subtraction agrees with it on the only use `> 60000`, since a negative JS
difference and a truncated-to-zero Nat difference both fail that test. -/
def contactRateLimit (ip : String) (now : Nat) (m : List (String × RLEntry)) :
    Option ApiResponse × List (String × RLEntry) :=
  let entry := (rlLookup m ip).getD ⟨0, now⟩
  let entry := if now - entry.ts > 60000 then ⟨0, now⟩ else entry
  let entry : RLEntry := ⟨entry.count + 1, entry.ts⟩
  let m' := rlSet m ip entry
  (if entry.count > 10 then some tooManyResponse else none, m')

/-- Runs the rate limiter over a sequence of request times from a single
client, threading the `contactHits` map, and collects each request's gate
outcome (`none` = passed through to the handler, `some r` = rejected). -/
def runRateLimit (ip : String) : List Nat → List (String × RLEntry) →
    List (Option ApiResponse)
  | [], _ => []
  | t :: ts, m =>
    let step := contactRateLimit ip t m
    step.1 :: runRateLimit ip ts step.2

mutual

/-- JS string conversion `String(x)` / `x.toString()` as used on contact-form
fields: numbers and booleans print canonically, arrays join their elements
with commas (with `null` elements contributing the empty string, handled in
`joinElems`), and plain objects print as `[object Object]`. -/
def jsToString : Json → String
  | .null => "null"
  | .bool b => if b then "true" else "false"
  | .num n => toString n
  | .str s => s
  | .arr xs => joinElems xs
  | .obj _ => "[object Object]"

/-- `Array.prototype.join(",")` over the element conversions. -/
def joinElems : List Json → String
  | [] => ""
  | [x] => match x with
    | .null => ""
    | x => jsToString x
  | x :: y :: rest =>
    (match x with
      | .null => ""
      | x => jsToString x) ++ "," ++ joinElems (y :: rest)

end

/-- Characters removed by JS `String.prototype.trim`: the WhiteSpace and
LineTerminator sets of the ECMAScript specification. -/
def isJsSpace (c : Char) : Bool :=
  c.toNat ∈ [0x09, 0x0a, 0x0b, 0x0c, 0x0d, 0x20, 0xa0, 0x1680,
             0x2000, 0x2001, 0x2002, 0x2003, 0x2004, 0x2005, 0x2006, 0x2007,
             0x2008, 0x2009, 0x200a, 0x2028, 0x2029, 0x202f, 0x205f, 0x3000,
             0xfeff]

/-- JS `s.trim()`: strip leading and trailing whitespace. -/
def jsTrim (s : String) : String :=
  String.mk (((s.data.dropWhile isJsSpace).reverse.dropWhile isJsSpace).reverse)

/-- The value of `(req.body?.k || "").toString().trim()` for a contact-form
field: the field when truthy, otherwise the empty string, converted to a JS
string and trimmed. -/
def contactField (body : Option Json) (k : String) : String :=
  jsTrim (jsToString (match body.bind (fun b => b.getField k) with
    | some v => if v.isTruthy then v else .str ""
    | none => .str ""))

/-- SMTP relay configuration of the session+SMTP variant.  `getMailer`
(src/unnamed/part_000 lines 174-182) returns `null` unless all four of
`SMTP_HOST`, `SMTP_USER`, `SMTP_PASS`, `CONTACT_TO` are set (non-empty). -/
structure MailConfig where
  smtpHost : String
  smtpUser : String
  smtpPass : String
  contactTo : String

/-- Whether `getMailer` yields a transporter. -/
def MailConfig.isConfigured (c : MailConfig) : Bool :=
  c.smtpHost ≠ "" && c.smtpUser ≠ "" && c.smtpPass ≠ "" && c.contactTo ≠ ""

/-- Embeds the `POST /api/contact` handler body (src/unnamed/part_000 lines
251-301), i.e. what runs after the rate limiter: trim the fields, drop
honeypot submissions silently with `{ok:true}`, validate name/email/message,
fail with 500 when SMTP is unconfigured, otherwise attempt the send (`mailOk`
tells whether `sendMail` succeeds).  The second component records whether a
send was attempted. -/
def postContact (cfg : MailConfig) (mailOk : Bool) (body : Option Json) :
    ApiResponse × Bool :=
  let name := contactField body "name"
  let email := contactField body "email"
  let message := contactField body "message"
  let website := contactField body "website"
  if website ≠ "" then (⟨200, .obj [("ok", .bool true)]⟩, false)
  else if name = "" || email = "" || message = "" then
    (⟨400, .obj [("ok", .bool false), ("error", .str "Missing name/email/message")]⟩, false)
  else if !cfg.isConfigured then
    (⟨500, .obj [("ok", .bool false),
      ("error", .str "Email is not configured. Set SMTP_HOST/SMTP_PORT/SMTP_USER/SMTP_PASS/CONTACT_TO in Render.")]⟩,
     false)
  else if mailOk then (⟨200, .obj [("ok", .bool true)]⟩, true)
  else (⟨500, .obj [("ok", .bool false), ("error", .str "sendMail failed")]⟩, true)

/-- Concrete test document whose compact serialization is exactly the size
ceiling: `{"a":"aa...a"}` with 17 999 992 characters `a`, which serializes to
18 000 000 bytes. -/
def ceilingDoc : Json := .obj [("a", .str (String.mk (List.replicate 17999992 'a')))]

/-- Concrete test document whose compact serialization is one byte over the
size ceiling. -/
def ceilingDocOver : Json := .obj [("a", .str (String.mk (List.replicate 17999993 'a')))]

/-!
Helper lemmas shared by the claim theorems below.
-/

theorem escSize_a : escSize 'a' = 1 := rfl

theorem sum_escSize_replicate (n : Nat) :
    ((List.replicate n 'a').map escSize).sum = n := by
  induction n with
  | zero => rfl
  | succ k ih =>
    simp only [List.replicate_succ, List.map_cons, List.sum_cons, ih, escSize_a]
    omega

theorem strSize_replicate_a (n : Nat) :
    strSize (String.mk (List.replicate n 'a')) = n + 2 := by
  show 2 + ((List.replicate n 'a').map escSize).sum = n + 2
  rw [sum_escSize_replicate]
  omega

theorem serializedSize_singleA (n : Nat) :
    serializedSize (.obj [("a", .str (String.mk (List.replicate n 'a')))]) = n + 8 := by
  show 2 + sizeFields [("a", .str (String.mk (List.replicate n 'a')))] = n + 8
  show 2 + (strSize "a" + 1 + serializedSize (.str (String.mk (List.replicate n 'a')))) = n + 8
  show 2 + (strSize "a" + 1 + strSize (String.mk (List.replicate n 'a'))) = n + 8
  rw [strSize_replicate_a, show strSize "a" = 3 from rfl]
  omega

theorem find_setKey (fs : List (String × Json)) (k : String) (v : Json) :
    ((setKey fs k v).find? (fun p => p.1 = k)).map (fun p => p.2) = some v := by
  unfold setKey
  by_cases h : fs.any (fun p => p.1 = k)
  · rw [if_pos h]
    induction fs with
    | nil => simp at h
    | cons p rest ih =>
      by_cases hp : p.1 = k
      · simp [hp, List.find?]
      · simp only [List.map_cons, if_neg hp, List.find?]
        rw [show (decide (p.1 = k)) = false from by simp [hp]]
        apply ih
        simpa [hp] using h
  · rw [if_neg h]
    induction fs with
    | nil => simp [List.find?]
    | cons p rest ih =>
      have hp : ¬(p.1 = k) := by
        intro hk
        exact h (by simp [List.any_cons, hk])
      simp only [List.cons_append, List.find?]
      rw [show (decide (p.1 = k)) = false from by simp [hp]]
      apply ih
      intro hany
      exact h (by simp [List.any_cons, hany])

theorem readSiteData_isTruthy (fs : FileState) (j : Json)
    (h : readSiteData fs = some j) : j.isTruthy = true := by
  cases fs with
  | parsed x =>
    simp only [readSiteData] at h
    by_cases hx : x.isTruthy && x.typeofIsObject
    · rw [if_pos hx] at h
      cases h
      exact (Bool.and_eq_true ..).mp hx |>.1
    · rw [if_neg hx] at h
      cases h
  | missing => cases h
  | unreadable => cases h
  | empty => cases h
  | malformed => cases h

theorem readSiteData_ne_null (fs : FileState) :
    readSiteData fs ≠ some Json.null := by
  intro h
  have := readSiteData_isTruthy fs Json.null h
  simp [Json.isTruthy] at this

theorem contactRateLimit_step (ip : String) (t t0 k : Nat) (ht : t ≤ t0 + 60000) :
    contactRateLimit ip t [(ip, ⟨k, t0⟩)] =
      (if k + 1 > 10 then some tooManyResponse else none, [(ip, ⟨k + 1, t0⟩)]) := by
  have hwin : ¬(t - t0 > 60000) := by omega
  unfold contactRateLimit rlLookup rlSet
  simp [List.find?, hwin]

theorem runRateLimit_window (ip : String) (ts : List Nat) (t0 : Nat) :
    ∀ k : Nat, (∀ t ∈ ts, t ≤ t0 + 60000) →
      runRateLimit ip ts [(ip, ⟨k, t0⟩)] =
        (List.range ts.length).map
          (fun i => if k + 1 + i > 10 then some tooManyResponse else none) := by
  induction ts with
  | nil => intro k _; rfl
  | cons t rest ih =>
    intro k h
    have ht : t ≤ t0 + 60000 := h t (by simp)
    have hrest : ∀ u ∈ rest, u ≤ t0 + 60000 := fun u hu => h u (by simp [hu])
    show (contactRateLimit ip t [(ip, ⟨k, t0⟩)]).1 ::
        runRateLimit ip rest (contactRateLimit ip t [(ip, ⟨k, t0⟩)]).2 = _
    rw [contactRateLimit_step ip t t0 k ht]
    rw [ih (k + 1) hrest]
    rw [List.length_cons, List.range_succ_eq_map, List.map_cons, List.map_map]
    have harith : (fun i => if k + 1 + 1 + i > 10 then some tooManyResponse else none) =
        ((fun i => if k + 1 + i > 10 then some tooManyResponse else none) ∘ Nat.succ) := by
      funext i
      have : k + 1 + 1 + i = k + 1 + (i + 1) := by omega
      simp [Function.comp, Nat.succ_eq_add_one, this]
    rw [harith]

/-!
Claim theorems.
-/

/-- C3 counterexample: a file whose content parses to a JSON array is not
treated as Absent — `readSiteData` returns the array itself, because in JS
`typeof [] === "object"` and arrays are truthy. -/
theorem read_returns_array_not_absent :
    readSiteData (.parsed (.arr [])) = some (.arr []) ∧
    readSiteData (.parsed (.arr [])) ≠ none :=
  ⟨rfl, by simp [readSiteData, Json.isTruthy, Json.typeofIsObject]⟩

/-- C3 (amended): `read()` returns Absent when the document file is missing,
unreadable, empty or unparsable, and when it parses to JSON null or a scalar
(boolean, number, string); but a file parsing to a JSON array is returned as
the document, and an object is returned as the document. -/
theorem read_absent_classification :
    readSiteData .missing = none ∧
    readSiteData .unreadable = none ∧
    readSiteData .empty = none ∧
    readSiteData .malformed = none ∧
    readSiteData (.parsed .null) = none ∧
    (∀ b, readSiteData (.parsed (.bool b)) = none) ∧
    (∀ n, readSiteData (.parsed (.num n)) = none) ∧
    (∀ s, readSiteData (.parsed (.str s)) = none) ∧
    (∀ xs, readSiteData (.parsed (.arr xs)) = some (.arr xs)) ∧
    (∀ fields, readSiteData (.parsed (.obj fields)) = some (.obj fields)) := by
  refine ⟨rfl, rfl, rfl, rfl, rfl, fun b => ?_, fun n => ?_, fun s => ?_,
    fun xs => rfl, fun fields => rfl⟩ <;>
    simp [readSiteData, Json.isTruthy, Json.typeofIsObject]

/-- C8: after every write, the stored payload's `_meta` field is exactly
`{savedAt: now}` — whatever `_meta` the caller supplied inside the candidate
is replaced wholesale, for every candidate value. -/
theorem write_meta_exact (data : Json) (now : String) :
    (writePayload data now).getField "_meta" = some (metaObj now) := by
  show ((setKey (spreadFields data) "_meta" (metaObj now)).find?
      (fun p => p.1 = "_meta")).map (fun p => p.2) = some (metaObj now)
  exact find_setKey (spreadFields data) "_meta" (metaObj now)

/-- C9: with `ADMIN_USER` and `ADMIN_PASS` unset in the environment, logging
in with the built-in defaults `admin` / `change-me` answers 200 `{ok:true}`
and marks the session authenticated, whatever the session was before. -/
theorem default_credentials_login (sess : Option Bool) :
    postLogin (adminUser none) (adminPass none)
        (some (.obj [("username", .str "admin"), ("password", .str "change-me")])) sess
      = (⟨200, .obj [("ok", .bool true)]⟩, some true) ∧
    isAuthed (postLogin (adminUser none) (adminPass none)
        (some (.obj [("username", .str "admin"), ("password", .str "change-me")])) sess).2
      = true :=
  ⟨rfl, rfl⟩

/-- C10 counterexample: a contact request whose `website` honeypot field is
the non-empty string of one space is not dropped with `{ok:true}` — the
handler trims it, falls through to validation, and answers 400 even on a
fully configured relay. -/
theorem contact_whitespace_honeypot_not_accepted :
    (postContact ⟨"h", "u", "p", "t"⟩ true (some (.obj [("website", .str " ")]))).1.status = 400 ∧
    (postContact ⟨"h", "u", "p", "t"⟩ true (some (.obj [("website", .str " ")]))).1.status ≠ 200 ∧
    (postContact ⟨"h", "u", "p", "t"⟩ true (some (.obj [("website", .str " ")]))).2 = false :=
  ⟨rfl, by decide, rfl⟩

/-- C10 (amended): every contact request whose `website` field is non-empty
after trimming is answered 200 `{ok:true}` with no field validation and no
send attempt, for every relay configuration and send outcome. -/
theorem contact_honeypot_skips_validation_and_mail (cfg : MailConfig) (mailOk : Bool)
    (body : Option Json) (h : contactField body "website" ≠ "") :
    postContact cfg mailOk body = (⟨200, .obj [("ok", .bool true)]⟩, false) := by
  unfold postContact
  rw [if_pos h]

/-- C10 witness: a request carrying only a filled honeypot — no name, email
or message, an unconfigured relay and a failing mailer — still gets
`{ok:true}` and no send attempt. -/
theorem contact_honeypot_skips_validation_and_mail_witness :
    contactField (some (.obj [("website", .str "http://spam.example")])) "website" ≠ "" ∧
    postContact ⟨"", "", "", ""⟩ false (some (.obj [("website", .str "http://spam.example")])) =
      (⟨200, .obj [("ok", .bool true)]⟩, false) :=
  ⟨by decide, contact_honeypot_skips_validation_and_mail ⟨"", "", "", ""⟩ false
    (some (.obj [("website", .str "http://spam.example")])) (by decide)⟩

/-- C7: starting from a fresh rate-limit map, 11 contact requests from the
same client address whose times all fall within one minute of the first pass
the limiter 10 times and are rejected with the 429 response on the 11th. -/
theorem contact_rate_limit_eleven (ip : String) (t0 : Nat) (rest : List Nat)
    (hlen : rest.length = 10) (h : ∀ t ∈ rest, t ≤ t0 + 60000) :
    runRateLimit ip (t0 :: rest) [] =
      List.replicate 10 none ++ [some tooManyResponse] := by
  have hfirst : contactRateLimit ip t0 [] = (none, [(ip, ⟨1, t0⟩)]) := by
    unfold contactRateLimit rlLookup rlSet
    simp
  show (contactRateLimit ip t0 []).1 ::
      runRateLimit ip rest (contactRateLimit ip t0 []).2 = _
  rw [hfirst]
  rw [runRateLimit_window ip rest t0 1 h, hlen]
  rfl

/-- C7 witness: eleven simultaneous requests from one address — the first ten
pass, the eleventh gets the 429 answer. -/
theorem contact_rate_limit_eleven_witness :
    (List.replicate 10 (0 : Nat)).length = 10 ∧
    (∀ t ∈ List.replicate 10 (0 : Nat), t ≤ 0 + 60000) ∧
    runRateLimit "203.0.113.5" ((0 : Nat) :: List.replicate 10 0) [] =
      List.replicate 10 none ++ [some tooManyResponse] :=
  ⟨by simp, by simp, contact_rate_limit_eleven "203.0.113.5" 0 (List.replicate 10 0)
    (by simp) (by simp)⟩

/-- C1 counterexample: `POST /api/logout` carrying no session answers 200,
not 401 — the handler is registered without the `requireSessionApi` gate. -/
theorem logout_without_session_returns_200_not_401 :
    (postLogout none).1.status = 200 ∧ (postLogout none).1.status ≠ 401 :=
  ⟨rfl, by decide⟩

/-- C1 (amended): with no valid session, `POST /api/site` and
`POST /api/upload` answer 401 Unauthorized and leave the document file
untouched, for every request body; but `POST /api/logout` is not gated — it
answers 200 regardless of the session — and the Brevo server variant's
`POST /api/site` performs the write with no authentication at all. -/
theorem mutating_endpoints_auth_gate (sess : Option Bool) (body : Option Json)
    (now : String) (diskOk : Bool) (fs : FileState) (file : Option String)
    (h : isAuthed sess = false) :
    postSite sess body now diskOk fs = (unauthorizedResponse, fs) ∧
    postUpload sess file fs = (unauthorizedResponse, fs) ∧
    (postLogout sess).1.status = 200 ∧
    (∀ b : Json, (postSiteBrevo b true fs).2 = .parsed b) := by
  refine ⟨?_, ?_, rfl, fun b => rfl⟩
  · unfold postSite
    rw [h]
    rfl
  · unfold postUpload
    rw [h]
    rfl

/-- C1 witness: a concrete unauthenticated request against each endpoint. -/
theorem mutating_endpoints_auth_gate_witness :
    isAuthed none = false ∧
    postSite none (some (.obj [("data", .obj [("title", .str "Hi")])])) "t" true .missing
      = (unauthorizedResponse, .missing) ∧
    postUpload none (some "x.png") .missing = (unauthorizedResponse, .missing) ∧
    (postLogout none).1.status = 200 :=
  ⟨rfl,
    (mutating_endpoints_auth_gate none (some (.obj [("data", .obj [("title", .str "Hi")])]))
      "t" true .missing (some "x.png") rfl).1,
    (mutating_endpoints_auth_gate none (some (.obj [("data", .obj [("title", .str "Hi")])]))
      "t" true .missing (some "x.png") rfl).2.1,
    (mutating_endpoints_auth_gate none (some (.obj [("data", .obj [("title", .str "Hi")])]))
      "t" true .missing (some "x.png") rfl).2.2.1⟩

/-- C2 counterexample: for the candidate `{"_meta": {"x": 1}}`, an
authenticated write followed by a read does not return the candidate extended
with the injected timestamp — the caller's `_meta.x` entry has been removed
from the stored document. -/
theorem write_read_replaces_caller_meta :
    (Json.obj [("_meta", .obj [("x", .num 1)])]).getField "_meta"
      = some (.obj [("x", .num 1)]) ∧
    (((readSiteData
        (writeSiteData (.obj [("_meta", .obj [("x", .num 1)])])
          "2024-01-01T00:00:00.000Z" true .missing).2).bind
        (fun j => j.getField "_meta")).bind (fun m => m.getField "x")) = none :=
  ⟨rfl, rfl⟩

/-- C2 (amended): for every JSON object `d` within the size ceiling that has
no `_meta` field of its own, a successful write of `d` followed by a read
returns exactly `d` extended with the injected `_meta = {savedAt: now}` pair
and nothing else; a caller-supplied `_meta` is instead replaced (see the
counterexample). -/
theorem write_read_roundtrip_no_meta (fields : List (String × Json)) (now : String)
    (fs : FileState)
    (hmeta : fields.any (fun p => p.1 = "_meta") = false)
    (_hsize : serializedSize (.obj fields) ≤ MAX_SITE_SIZE) :
    readSiteData (writeSiteData (.obj fields) now true fs).2 =
      some (.obj (fields ++ [("_meta", metaObj now)])) := by
  show readSiteData (.parsed (writePayload (.obj fields) now)) = _
  unfold writePayload spreadFields setKey
  rw [hmeta]
  rfl

/-- C2 witness: writing `{"title": "Hi"}` and reading it back yields the same
object with the injected `_meta.savedAt` appended. -/
theorem write_read_roundtrip_no_meta_witness :
    ([("title", Json.str "Hi")].any (fun p => p.1 = "_meta") = false) ∧
    serializedSize (.obj [("title", Json.str "Hi")]) ≤ MAX_SITE_SIZE ∧
    readSiteData (writeSiteData (.obj [("title", Json.str "Hi")])
        "2024-01-01T00:00:00.000Z" true .missing).2 =
      some (.obj ([("title", Json.str "Hi")] ++
        [("_meta", metaObj "2024-01-01T00:00:00.000Z")])) :=
  ⟨by decide, by decide,
    write_read_roundtrip_no_meta [("title", Json.str "Hi")] "2024-01-01T00:00:00.000Z"
      .missing (by decide) (by decide)⟩

/-- C6: for every state of the store, `GET /api/site` answers 200 with body
`{ok: true, data: X}` where `X` is the stored document when the read yields
one and JSON null exactly when the read yields Absent (the read can never
yield the JSON value null, so `data` is null precisely in the Absent case). -/
theorem get_site_shape (fs : FileState) :
    getSite fs = ⟨200, .obj [("ok", .bool true),
      ("data", (readSiteData fs).getD .null)]⟩ ∧
    readSiteData fs ≠ some .null := by
  refine ⟨?_, readSiteData_ne_null fs⟩
  have h1 : siteDataOrNull fs = (readSiteData fs).getD .null := by
    unfold siteDataOrNull
    cases hr : readSiteData fs with
    | none => rfl
    | some j =>
      have ht := readSiteData_isTruthy fs j hr
      simp [ht]
  unfold getSite
  rw [h1]

/-- C4 counterexample: an authenticated `POST /api/site` whose `data` field is
the JSON array `[]` — not a JSON object — is not rejected: the handler answers
200 and overwrites the document file, because `typeof [] === "object"` in JS. -/
theorem post_site_accepts_array_data :
    (postSite (some true) (some (.obj [("data", .arr [])])) "t" true .missing).1.status = 200 ∧
    (postSite (some true) (some (.obj [("data", .arr [])])) "t" true .missing).1.status ≠ 400 ∧
    (postSite (some true) (some (.obj [("data", .arr [])])) "t" true .missing).2 =
      .parsed (.obj [("_meta", metaObj "t")]) :=
  ⟨rfl, by decide, rfl⟩

/-- C4 (amended): an authenticated `POST /api/site` answers 400 `Missing data`
without touching the document file exactly when the body's `data` field is
missing, JSON null, `false`, `0`, the empty string, or a non-object primitive
— i.e. when it fails the JS check `data && typeof data === "object"`; a JSON
array passes that check and is written. -/
theorem post_site_validation_exact (sess : Option Bool) (body : Option Json)
    (now : String) (diskOk : Bool) (fs : FileState) (hauth : isAuthed sess = true) :
    ((postSite sess body now diskOk fs).1.status = 400 ↔
      dataAccepted (body.bind (fun b => b.getField "data")) = false) ∧
    (dataAccepted (body.bind (fun b => b.getField "data")) = false →
      postSite sess body now diskOk fs =
        (⟨400, .obj [("ok", .bool false), ("error", .str "Missing data")]⟩, fs)) := by
  unfold postSite
  rw [hauth]
  simp only [Bool.not_true, Bool.false_eq_true, if_false]
  cases hb : body.bind (fun b => b.getField "data") with
  | none => simp [dataAccepted]
  | some d =>
    cases hd : d.isTruthy && d.typeofIsObject with
    | false => simp [dataAccepted, hd]
    | true =>
      simp only [dataAccepted, hd, Bool.not_true, Bool.false_eq_true, if_false]
      by_cases hsz : serializedSize d > MAX_SITE_SIZE
      · simp [hsz]
      · cases diskOk with
        | true => simp [hsz, writeSiteData]
        | false => simp [hsz, writeSiteData]

/-- C4 witness: an authenticated request whose `data` field is a string is
rejected with 400 and the file stays as it was. -/
theorem post_site_validation_exact_witness :
    isAuthed (some true) = true ∧
    dataAccepted ((some (Json.obj [("data", Json.str "x")])).bind
      (fun b => b.getField "data")) = false ∧
    postSite (some true) (some (.obj [("data", .str "x")])) "t" true .missing =
      (⟨400, .obj [("ok", .bool false), ("error", .str "Missing data")]⟩, .missing) :=
  ⟨rfl, rfl,
    (post_site_validation_exact (some true) (some (.obj [("data", .str "x")]))
      "t" true .missing rfl).2 rfl⟩

/-- C5: an authenticated write whose candidate serializes to exactly the
configured ceiling (18 000 000 bytes in src/README.md line 188) succeeds with
200 and stores the payload, and a candidate serializing over the ceiling is
answered 413 Payload Too Large — not 500 — with the document file left
unmodified. -/
theorem post_site_size_ceiling (sess : Option Bool) (d : Json) (now : String)
    (fs : FileState) (hauth : isAuthed sess = true)
    (hobj : (d.isTruthy && d.typeofIsObject) = true) :
    (serializedSize d = MAX_SITE_SIZE →
      postSite sess (some (.obj [("data", d)])) now true fs =
        (⟨200, .obj [("ok", .bool true), ("data", writePayload d now)]⟩,
          .parsed (writePayload d now))) ∧
    (serializedSize d > MAX_SITE_SIZE →
      postSite sess (some (.obj [("data", d)])) now true fs =
        (⟨413, .obj [("ok", .bool false),
          ("error", .str "Payload too large (reduce images or text)")]⟩, fs) ∧
      (postSite sess (some (.obj [("data", d)])) now true fs).1.status ≠ 500) := by
  have hred : postSite sess (some (.obj [("data", d)])) now true fs =
      (if serializedSize d > MAX_SITE_SIZE then
        (⟨413, .obj [("ok", .bool false),
          ("error", .str "Payload too large (reduce images or text)")]⟩, fs)
      else (⟨200, .obj [("ok", .bool true), ("data", writePayload d now)]⟩,
          .parsed (writePayload d now))) := by
    unfold postSite
    rw [hauth]
    simp only [Bool.not_true, Bool.false_eq_true, if_false]
    show (if (!(d.isTruthy && d.typeofIsObject)) = true then _ else _) = _
    rw [hobj]
    simp only [Bool.not_true, Bool.false_eq_true, if_false]
    rfl
  constructor
  · intro hsz
    rw [hred, if_neg (by omega)]
  · intro hsz
    refine ⟨by rw [hred, if_pos hsz], ?_⟩
    rw [hred, if_pos hsz]
    show (413 : Nat) ≠ 500
    decide

/-- C5 witness: the concrete document serializing to exactly 18 000 000 bytes
is stored with 200, and the one serializing to 18 000 001 bytes is answered
413 with the file untouched. -/
theorem post_site_size_ceiling_witness :
    serializedSize ceilingDoc = MAX_SITE_SIZE ∧
    serializedSize ceilingDocOver > MAX_SITE_SIZE ∧
    postSite (some true) (some (.obj [("data", ceilingDoc)])) "t" true .missing =
      (⟨200, .obj [("ok", .bool true), ("data", writePayload ceilingDoc "t")]⟩,
        .parsed (writePayload ceilingDoc "t")) ∧
    postSite (some true) (some (.obj [("data", ceilingDocOver)])) "t" true .missing =
      (⟨413, .obj [("ok", .bool false),
        ("error", .str "Payload too large (reduce images or text)")]⟩, .missing) := by
  have h0 : serializedSize ceilingDoc = MAX_SITE_SIZE := by
    show serializedSize (.obj [("a", .str (String.mk (List.replicate 17999992 'a')))]) = _
    rw [serializedSize_singleA]
    norm_num [MAX_SITE_SIZE]
  have h1 : serializedSize ceilingDocOver > MAX_SITE_SIZE := by
    show serializedSize (.obj [("a", .str (String.mk (List.replicate 17999993 'a')))]) > _
    rw [serializedSize_singleA]
    norm_num [MAX_SITE_SIZE]
  refine ⟨h0, h1, ?_, ?_⟩
  · exact (post_site_size_ceiling (some true) ceilingDoc "t" .missing rfl rfl).1 h0
  · exact ((post_site_size_ceiling (some true) ceilingDocOver "t" .missing rfl rfl).2 h1).1

end VitroSite
